import Mathlib

/-!
A verification development for the drm-fb splash tool (src/main.c).

The C program is shallowly embedded: device ioctls are modelled by oracles
(booleans and values recording how the kernel would have answered), machine
integers by `Nat`, pointers into the framebuffer by list offsets, and the
global control flow of `main` by explicit state passing.  Each definition
mirrors one function or phase of src/main.c; the theorems settle the claims
of the specification against those definitions.
-/

namespace DrmFb

/-! ## CrtcAllocator: `find_crtc` (src/main.c:56-83)

`drmModeRes.crtcs` is modelled as the list of CRTC object ids in slot order;
a connector's candidate encoders as a list of `Option Nat`: `none` when
`drmModeGetEncoder` fails for that encoder id (the loop `continue`s), and
`some possible` for the encoder's `possible_crtcs` bitmask.  The shared
`taken_crtcs` bitmask is a `Nat` used through `Nat.testBit`. -/

/-- One candidate encoder of a connector: `none` when `drmModeGetEncoder`
returns NULL, otherwise its `possible_crtcs` bitmask. -/
abbrev Encoder := Option Nat

/-- The inner loop of `find_crtc` (src/main.c:64-77): scan CRTC slots from
index `i` upward; at the first slot whose bit is in `possible` and not in
`taken`, return that slot's CRTC id together with the updated mask
(`*taken_crtcs |= bit`).  `none` when no slot qualifies. -/
def scanCrtcs : List Nat → Nat → Nat → Nat → Option (Nat × Nat)
  | [], _, _, _ => none
  | c :: rest, i, possible, taken =>
    if possible.testBit i && !taken.testBit i then some (c, taken ||| 2 ^ i)
    else scanCrtcs rest (i + 1) possible taken

/-- `find_crtc` (src/main.c:56-83): walk the connector's candidate encoders
in device order, skipping those the device fails to return; on the first
encoder whose scan hits a free compatible slot, mark the slot taken and
return its CRTC id; otherwise return 0 with the mask unchanged.
Result: (returned id, updated `taken_crtcs`). -/
def find_crtc (crtcs : List Nat) : List Encoder → Nat → Nat × Nat
  | [], taken => (0, taken)
  | none :: rest, taken => find_crtc crtcs rest taken
  | some possible :: rest, taken =>
    match scanCrtcs crtcs 0 possible taken with
    | some sel => sel
    | none => find_crtc crtcs rest taken

/-- One enumeration pass of allocation attempts: the sequence of `find_crtc`
calls that `main`'s connector loop makes, threading the shared
`taken_crtcs` mask.  Result: (returned ids in call order, final mask). -/
def allocPass (crtcs : List Nat) : List (List Encoder) → Nat → List Nat × Nat
  | [], taken => ([], taken)
  | conn :: rest, taken =>
    let sel := find_crtc crtcs conn taken
    let tail := allocPass crtcs rest sel.2
    (sel.1 :: tail.1, tail.2)

/-- Modelled from the spec's words (§4.1): the first controller slot, in
index order, that is (a) listed as possible for the encoder and (b) not yet
marked taken. -/
def specFirstSlot (numSlots possible taken : Nat) : Option Nat :=
  (List.range numSlots).find? (fun j => possible.testBit j && !taken.testBit j)

/-- Modelled from the spec's words (§4.1): first-fit over (encoder order,
controller index order); the selected slot is marked taken and its id
returned; `none` when no encoder yields an available slot. -/
def specAllocate (crtcs : List Nat) : List Encoder → Nat → Option (Nat × Nat)
  | [], _ => none
  | none :: rest, taken => specAllocate crtcs rest taken
  | some possible :: rest, taken =>
    match specFirstSlot crtcs.length possible taken with
    | some j => some (crtcs.getD j 0, taken ||| 2 ^ j)
    | none => specAllocate crtcs rest taken

/-! ## DumbBufferManager: `create_fb` (src/main.c:85-143)

The four kernel interactions (`DRM_IOCTL_MODE_CREATE_DUMB`,
`drmModeAddFB2`, `DRM_IOCTL_MODE_MAP_DUMB`, `mmap`) are oracles recording
how each call would answer; the result records the returned boolean and
which kernel resources are still allocated when `create_fb` returns. -/

/-- A user-space pointer value as `mmap` can produce it: POSIX `mmap`
reports failure by returning `MAP_FAILED` ((void *)-1), never NULL. -/
inductive Ptr where
  | null : Ptr
  | mapFailed : Ptr
  | addr : Nat → Ptr
deriving DecidableEq

/-- Oracle for the kernel interactions of `create_fb`. -/
structure CreateFbEnv where
  createDumbOk : Bool
  addFbOk : Bool
  mapDumbOk : Bool
  mmapResult : Ptr
deriving DecidableEq

/-- Outcome of `create_fb`: the returned boolean, whether the dumb buffer
and the FB object are still allocated on return, the `fb->data` pointer,
and the pointer the closing `memset(fb->data, 0xff, fb->size)` writes
through when that line is reached. -/
structure CreateFbResult where
  ok : Bool
  dumbLive : Bool
  fbLive : Bool
  data : Ptr
  memsetTarget : Option Ptr
deriving DecidableEq

/-- `create_fb` (src/main.c:85-143).  The error paths mirror the source's
goto chain: a failing `drmModeAddFB2` falls to `error_dumb`, destroying
the dumb buffer; a failing `DRM_IOCTL_MODE_MAP_DUMB` falls to `error_fb`,
removing the FB object and then destroying the dumb buffer.  The `mmap`
return value is compared against NULL only (`if (!fb->data)`,
src/main.c:127), so a `MAP_FAILED` return continues on the success path. -/
def create_fb (e : CreateFbEnv) : CreateFbResult :=
  if e.createDumbOk = false then
    ⟨false, false, false, Ptr.null, none⟩
  else if e.addFbOk = false then
    ⟨false, false, false, Ptr.null, none⟩
  else if e.mapDumbOk = false then
    ⟨false, false, false, Ptr.null, none⟩
  else if e.mmapResult = Ptr.null then
    ⟨false, false, false, Ptr.null, none⟩
  else
    ⟨true, true, true, e.mmapResult, some e.mmapResult⟩

/-- The environment in which `mmap` fails: the three ioctls succeed and
`mmap` returns `MAP_FAILED`. -/
def mmapFailEnv : CreateFbEnv :=
  { createDumbOk := true, addFbOk := true, mapDumbOk := true,
    mmapResult := Ptr.mapFailed }

/-! ## Image loading: `load_splash_image_from_stdin` (src/main.c:145-180)

The mapping is a list of byte values; the stdin source is the sequence of
answers successive `read(2)` calls would give. -/

/-- One result of a `read(2)` call on standard input: a negative return
(`err`), or the bytes delivered — `bytes []` is a zero return, i.e. EOF. -/
inductive Chunk where
  | err : Chunk
  | bytes : List Nat → Chunk
deriving DecidableEq

/-- Effect of a successful `read` into `ptr`: copy `w` into the mapping at
byte offset `pos`, leaving everything else unchanged. -/
def writeAt (data : List Nat) (pos : Nat) (w : List Nat) : List Nat :=
  data.take pos ++ w ++ data.drop (pos + w.length)

/-- The read loop of `load_splash_image_from_stdin` (src/main.c:155-169):
`pos` plays `total_read` (equivalently `ptr - fb->data`) and
`data.length - pos` plays `remaining`.  `read` returns at most `remaining`
bytes, so an oversized chunk is truncated; a zero-byte read (EOF) or an
exhausted source ends the loop; an error read aborts with failure.
Result: the final mapping contents and `total_read`. -/
def loadLoop : List Chunk → List Nat → Nat → Option (List Nat × Nat)
  | [], data, pos => some (data, pos)
  | Chunk.err :: _, data, pos =>
    if data.length ≤ pos then some (data, pos) else none
  | Chunk.bytes bs :: rest, data, pos =>
    if data.length ≤ pos then some (data, pos)
    else if bs.isEmpty then some (data, pos)
    else
      loadLoop rest (writeAt data pos (bs.take (data.length - pos)))
        (pos + (bs.take (data.length - pos)).length)

/-- `load_splash_image_from_stdin` (src/main.c:145-180): run the read loop
over the whole mapping starting at offset 0.  A `some` result is the
function returning true (a size mismatch is only a warning); `none` is the
`read` error path returning false. -/
def load_splash_image_from_stdin (data : List Nat) (chunks : List Chunk) :
    Option (List Nat × Nat) :=
  loadLoop chunks data 0

/-! ## The full run of `main` (src/main.c:210-360)

Device interactions are oracles packed in a per-connector descriptor; the
state threads the shared `taken_crtcs` mask, the per-CRTC device
configuration, and the `conn_list` linked list (newest record first, as
built by the prepending insertion at src/main.c:252-253). -/

/-- The configuration of one CRTC as far as `drmModeGetCrtc` captures it
and the cleanup loop's `drmModeSetCrtc` restores it: scanout buffer id,
position, and mode. -/
structure CrtcCfg where
  buffer : Nat
  x : Nat
  y : Nat
  mode : Nat
deriving DecidableEq

/-- Oracle describing one iteration of the connector loop: the connector's
identity and how each device interaction would answer for it. -/
structure ConnDesc where
  queryOk : Bool      -- drmModeGetConnector returns non-NULL
  mallocOk : Bool     -- malloc of the connector record succeeds
  cid : Nat           -- connector_id
  isConnected : Bool  -- connection == DRM_MODE_CONNECTED
  nModes : Nat        -- count_modes
  mode0 : Nat         -- modes[0], as an opaque timing descriptor
  encoders : List Encoder
  createOk : Bool     -- create_fb succeeds (detailed model above)
  fbId : Nat          -- fb.id assigned on success
  fbHandle : Nat      -- fb.handle assigned on success
  loadOk : Bool       -- load_splash_image_from_stdin succeeds
  getCrtcOk : Bool    -- drmModeGetCrtc returns non-NULL
  setOk : Bool        -- the activating drmModeSetCrtc succeeds
  restoreOk : Bool    -- the restoring drmModeSetCrtc would succeed
deriving DecidableEq

/-- One `struct connector` record of `conn_list`, extended with the
liveness of the kernel resources it owns (process mapping, FB object,
dumb buffer). -/
structure ConnRec where
  cid : Nat
  connected : Bool
  crtc_id : Nat
  mode : Nat
  fbCreated : Bool
  fbId : Nat
  fbHandle : Nat
  imageLoaded : Bool
  saved : Option CrtcCfg   -- the drmModeGetCrtc snapshot; none if it failed
  restoreOk : Bool         -- oracle carried to the cleanup phase
  mappedLive : Bool
  fbLive : Bool
  dumbLive : Bool
deriving DecidableEq

/-- The record as first populated (src/main.c:246-253), before any check
runs: fields the source leaves uninitialized are 0/false/none here. -/
def baseRec (d : ConnDesc) : ConnRec :=
  { cid := d.cid, connected := d.isConnected, crtc_id := 0, mode := 0,
    fbCreated := false, fbId := 0, fbHandle := 0, imageLoaded := false,
    saved := none, restoreOk := d.restoreOk,
    mappedLive := false, fbLive := false, dumbLive := false }

/-- Mutable state of the enumeration phase: the shared `taken_crtcs` mask,
the device's per-CRTC configurations, and `conn_list` (newest first). -/
structure RunState where
  taken : Nat
  device : Nat → CrtcCfg
  recs : List ConnRec

/-- One iteration of the connector loop (src/main.c:233-320): query the
connector, allocate the record, check connection and modes, allocate a
CRTC, create the framebuffer, load the image, snapshot the CRTC, and
apply the mode switch; each failure `goto cleanup`s, leaving the record
(when one exists) with `connected = false`. -/
def activateStep (crtcs : List Nat) (st : RunState) (d : ConnDesc) : RunState :=
  if d.queryOk = false then st
  else if d.mallocOk = false then st
  else if d.isConnected = false then
    { st with recs := baseRec d :: st.recs }
  else if d.nModes = 0 then
    { st with recs := { baseRec d with connected := false } :: st.recs }
  else
    let fc := find_crtc crtcs d.encoders st.taken
    if fc.1 = 0 then
      { taken := fc.2, device := st.device,
        recs := { baseRec d with connected := false } :: st.recs }
    else if d.createOk = false then
      { taken := fc.2, device := st.device,
        recs := { baseRec d with
          connected := false,
          crtc_id := fc.1,
          mode := d.mode0 } :: st.recs }
    else if d.loadOk = false then
      { taken := fc.2, device := st.device,
        recs := { baseRec d with
          connected := false,
          crtc_id := fc.1,
          mode := d.mode0,
          fbCreated := true,
          fbId := d.fbId,
          fbHandle := d.fbHandle,
          mappedLive := true,
          fbLive := true,
          dumbLive := true } :: st.recs }
    else
      { taken := fc.2,
        device := if d.setOk then
            fun c => if c = fc.1 then ⟨d.fbId, 0, 0, d.mode0⟩ else st.device c
          else st.device,
        recs := { baseRec d with
          connected := true,
          crtc_id := fc.1,
          mode := d.mode0,
          fbCreated := true,
          fbId := d.fbId,
          fbHandle := d.fbHandle,
          imageLoaded := true,
          saved := if d.getCrtcOk then some (st.device fc.1) else none,
          mappedLive := true,
          fbLive := true,
          dumbLive := true } :: st.recs }

/-- The whole connector loop. -/
def enumeratePhase (crtcs : List Nat) (ds : List ConnDesc) (st : RunState) :
    RunState :=
  ds.foldl (activateStep crtcs) st

/-- One device call the cleanup loop (src/main.c:335-356) can issue. -/
inductive Action where
  | unmapAct : Nat → Action
  | rmFbAct : Nat → Action
  | destroyDumbAct : Nat → Action
  | setCrtcAct : Nat → CrtcCfg → Action
deriving DecidableEq

/-- The calls the cleanup loop issues for one record: teardown of the
framebuffer, then the restoring mode-set when a snapshot was captured —
and nothing at all for a record with `connected == false`. -/
def cleanupActions (r : ConnRec) : List Action :=
  if r.connected then
    [Action.unmapAct r.fbId, Action.rmFbAct r.fbId,
     Action.destroyDumbAct r.fbHandle] ++
    (match r.saved with
     | some cfg => [Action.setCrtcAct r.crtc_id cfg]
     | none => [])
  else []

/-- Effect of the cleanup loop on one record's kernel resources. -/
def cleanupRec (r : ConnRec) : ConnRec :=
  if r.connected then
    { r with mappedLive := false, fbLive := false, dumbLive := false }
  else r

/-- Effect of one record's restoring `drmModeSetCrtc` (src/main.c:347-348)
on the device: issued only for a connected record with a captured
snapshot, and effective only when the call succeeds (a failed restore is
best-effort and ignored). -/
def applyRestore (dev : Nat → CrtcCfg) (r : ConnRec) : Nat → CrtcCfg :=
  match r.saved with
  | some cfg =>
    if r.connected && r.restoreOk then
      fun c => if c = r.crtc_id then cfg else dev c
    else dev
  | none => dev

/-- Device state after the cleanup loop has walked all of `conn_list`. -/
def cleanupDevice (dev : Nat → CrtcCfg) (recs : List ConnRec) : Nat → CrtcCfg :=
  recs.foldl applyRestore dev

/-- Oracle for a whole run of `main`. -/
structure Env where
  openOk : Bool     -- open("/dev/dri/card0") succeeds
  getResOk : Bool   -- drmModeGetResources returns non-NULL
  forkOk : Bool     -- the fork() inside daemonize succeeds
  crtcs : List Nat  -- drmModeRes.crtcs
  conns : List ConnDesc
  device0 : Nat → CrtcCfg  -- CRTC configurations before the run

/-- Observable outcome of a run of `main`: exit status, final records,
final device state, calls issued by the cleanup loop. -/
structure RunOutcome where
  exitCode : Nat
  recs : List ConnRec
  device : Nat → CrtcCfg
  restoreLog : List Action

/-- `main` (src/main.c:210-360): open the device (exit 1 on failure),
enumerate resources (exit 1 on failure), run the connector loop, daemonize
— whose failing `fork` calls `exit(1)` (src/main.c:186-189) — idle until
the termination flag drops, then run the cleanup loop and return 0. -/
def mainRun (env : Env) : RunOutcome :=
  if env.openOk = false then ⟨1, [], env.device0, []⟩
  else if env.getResOk = false then ⟨1, [], env.device0, []⟩
  else
    let st := enumeratePhase env.crtcs env.conns ⟨0, env.device0, []⟩
    if env.forkOk = false then ⟨1, st.recs, st.device, []⟩
    else
      ⟨0, st.recs.map cleanupRec, cleanupDevice st.device st.recs,
        (st.recs.map cleanupActions).flatten⟩

/-! ## Surface teardown in isolation (src/main.c:339-342) -/

/-- Liveness of the three kernel-side resources backing a framebuffer. -/
structure SurfState where
  mappedLive : Bool
  fbLive : Bool
  dumbLive : Bool
deriving DecidableEq

/-- The kernel's answer to one teardown call: releasing a live resource
succeeds; releasing an already-released one has no effect and fails. -/
inductive CallResult where
  | ok : CallResult
  | errInvalid : CallResult
deriving DecidableEq

/-- The teardown sequence of the cleanup loop (src/main.c:339-342):
`munmap` the mapping, `drmModeRmFB` the FB object, destroy the dumb
buffer.  Every call is issued unconditionally; a call whose resource is
already gone has no effect and fails — but the source never inspects any
of the three return values, so the program reports nothing either way.
Result: (state afterwards, kernel call results, errors the program
reports). -/
def destroySurface (s : SurfState) : SurfState × List CallResult × List String :=
  (⟨false, false, false⟩,
   [if s.mappedLive then CallResult.ok else CallResult.errInvalid,
    if s.fbLive then CallResult.ok else CallResult.errInvalid,
    if s.dumbLive then CallResult.ok else CallResult.errInvalid],
   [])

/-! ## Invariants of the enumeration phase -/

/-- A record's CRTC, when the record is still connected, comes from a slot
of the device's CRTC list whose bit is set in the current mask. -/
def goodRec (crtcs : List Nat) (taken : Nat) (r : ConnRec) : Prop :=
  r.connected = true →
    ∃ k, k < crtcs.length ∧ taken.testBit k = true ∧ r.crtc_id = crtcs.getD k 0

/-- Two records never share a CRTC while both are connected. -/
def distinctCrtc (a b : ConnRec) : Prop :=
  a.connected = true → b.connected = true → a.crtc_id ≠ b.crtc_id

/-- Invariant maintained by the connector loop. -/
def Inv (crtcs : List Nat) (st : RunState) : Prop :=
  (∀ r ∈ st.recs, goodRec crtcs st.taken r) ∧ st.recs.Pairwise distinctCrtc

/-! ## Concrete fixtures used by the witness and counterexample theorems -/

/-- A prior CRTC configuration. -/
def cfg0 : CrtcCfg := ⟨7, 1, 2, 3⟩

/-- Initial device state: every CRTC configured as `cfg0`. -/
def dev0 : Nat → CrtcCfg := fun _ => cfg0

/-- Initial run state of the enumeration phase. -/
def st0 : RunState := ⟨0, dev0, []⟩

/-- A connector whose `drmModeGetConnector` query fails. -/
def dQueryFail : ConnDesc :=
  { queryOk := false, mallocOk := true, cid := 1, isConnected := true,
    nModes := 1, mode0 := 0, encoders := [], createOk := true, fbId := 0,
    fbHandle := 0, loadOk := true, getCrtcOk := true, setOk := true,
    restoreOk := true }

/-- A connector that proceeds to image loading and fails there. -/
def dLoadFail : ConnDesc :=
  { queryOk := true, mallocOk := true, cid := 30, isConnected := true,
    nModes := 1, mode0 := 9, encoders := [some 1], createOk := true,
    fbId := 11, fbHandle := 12, loadOk := false, getCrtcOk := true,
    setOk := true, restoreOk := true }

/-- A connector whose activating `drmModeSetCrtc` fails. -/
def dSetFail : ConnDesc :=
  { queryOk := true, mallocOk := true, cid := 31, isConnected := true,
    nModes := 1, mode0 := 9, encoders := [some 1], createOk := true,
    fbId := 11, fbHandle := 12, loadOk := true, getCrtcOk := true,
    setOk := false, restoreOk := true }

/-- A connector whose activation succeeds end to end. -/
def dGood : ConnDesc :=
  { queryOk := true, mallocOk := true, cid := 42, isConnected := true,
    nModes := 1, mode0 := 9, encoders := [some 1], createOk := true,
    fbId := 11, fbHandle := 12, loadOk := true, getCrtcOk := true,
    setOk := true, restoreOk := true }

/-- A run with one fully successful output on one CRTC. -/
def envGood : Env :=
  { openOk := true, getResOk := true, forkOk := true, crtcs := [5],
    conns := [dGood], device0 := dev0 }

/-- A run where startup succeeds but daemonize's fork fails. -/
def envForkFail : Env :=
  { openOk := true, getResOk := true, forkOk := false, crtcs := [],
    conns := [], device0 := dev0 }

/-- The record `dLoadFail` leaves behind: abandoned, framebuffer created
and still live. -/
def recLoadFail : ConnRec :=
  { cid := 30, connected := false, crtc_id := 5, mode := 9,
    fbCreated := true, fbId := 11, fbHandle := 12, imageLoaded := false,
    saved := none, restoreOk := true, mappedLive := true, fbLive := true,
    dumbLive := true }

/-- The record `dGood` leaves behind after teardown. -/
def recGoodFinal : ConnRec :=
  { cid := 42, connected := true, crtc_id := 5, mode := 9,
    fbCreated := true, fbId := 11, fbHandle := 12, imageLoaded := true,
    saved := some cfg0, restoreOk := true, mappedLive := false,
    fbLive := false, dumbLive := false }

lemma scanCrtcs_eq_find (possible taken : Nat) (cs : List Nat) :
    ∀ i : Nat,
      scanCrtcs cs i possible taken =
        match (List.range' i cs.length).find?
            (fun j => possible.testBit j && !taken.testBit j) with
        | some j => some (cs.getD (j - i) 0, taken ||| 2 ^ j)
        | none => none := by
  induction cs with
  | nil => intro i; simp [scanCrtcs]
  | cons c rest ih =>
    intro i
    have hlen : (c :: rest).length = rest.length + 1 := rfl
    rw [hlen, List.range'_succ]
    by_cases h : (possible.testBit i && !taken.testBit i) = true
    · rw [List.find?_cons_of_pos _ (by simpa using h)]
      simp [scanCrtcs, h]
    · rw [List.find?_cons_of_neg _ (by simpa using h)]
      have hsc : scanCrtcs (c :: rest) i possible taken
          = scanCrtcs rest (i + 1) possible taken := by
        simp [scanCrtcs, h]
      rw [hsc, ih (i + 1)]
      cases hf : (List.range' (i + 1) rest.length).find?
          (fun j => possible.testBit j && !taken.testBit j) with
      | none => rfl
      | some j =>
        have hj : i + 1 ≤ j := (List.mem_range'_1.mp (List.mem_of_find?_eq_some hf)).1
        have hji : j - i = (j - (i + 1)) + 1 := by omega
        simp [hji, List.getD_cons_succ]

lemma scanCrtcs_success {cs : List Nat} {possible taken c t' : Nat}
    (h : scanCrtcs cs 0 possible taken = some (c, t')) :
    ∃ k, k < cs.length ∧ taken.testBit k = false ∧ possible.testBit k = true ∧
      c = cs.getD k 0 ∧ t' = taken ||| 2 ^ k := by
  rw [scanCrtcs_eq_find] at h
  cases hf : (List.range' 0 cs.length).find?
      (fun j => possible.testBit j && !taken.testBit j) with
  | none => rw [hf] at h; exact absurd h (by simp)
  | some j =>
    rw [hf] at h
    have hmem := List.mem_range'_1.mp (List.mem_of_find?_eq_some hf)
    have hp := List.find?_some hf
    simp only [Bool.and_eq_true, Bool.not_eq_true'] at hp
    refine ⟨j, by omega, hp.2, hp.1, ?_, ?_⟩
    · simpa using congrArg Prod.fst (Option.some.inj h).symm
    · simpa using congrArg Prod.snd (Option.some.inj h).symm

lemma find_crtc_cases (crtcs : List Nat) (encs : List Encoder) (taken : Nat) :
    find_crtc crtcs encs taken = (0, taken) ∨
    ∃ k, k < crtcs.length ∧ taken.testBit k = false ∧
      find_crtc crtcs encs taken = (crtcs.getD k 0, taken ||| 2 ^ k) := by
  induction encs with
  | nil => left; rfl
  | cons e rest ih =>
    cases e with
    | none => simpa [find_crtc] using ih
    | some possible =>
      cases hs : scanCrtcs crtcs 0 possible taken with
      | none => simpa [find_crtc, hs] using ih
      | some sel =>
        obtain ⟨c, t'⟩ := sel
        obtain ⟨k, hk, hclear, _, hc, ht⟩ := scanCrtcs_success hs
        right
        exact ⟨k, hk, hclear, by simp [find_crtc, hs, hc, ht]⟩

lemma find_crtc_taken_mono (crtcs : List Nat) (encs : List Encoder)
    (taken b : Nat) (hb : taken.testBit b = true) :
    ((find_crtc crtcs encs taken).2).testBit b = true := by
  rcases find_crtc_cases crtcs encs taken with h | ⟨k, _, _, h⟩ <;>
    rw [h] <;> simp [Nat.testBit_or, hb]

lemma find_crtc_success {crtcs : List Nat} {encs : List Encoder} {taken : Nat}
    (h : (find_crtc crtcs encs taken).1 ≠ 0) :
    ∃ k, k < crtcs.length ∧ taken.testBit k = false ∧
      find_crtc crtcs encs taken = (crtcs.getD k 0, taken ||| 2 ^ k) := by
  rcases find_crtc_cases crtcs encs taken with h0 | hs
  · exact absurd (congrArg Prod.fst h0) h
  · exact hs

lemma nodup_getD_ne {l : List Nat} (hnd : l.Nodup) {k k' : Nat}
    (hk : k < l.length) (hk' : k' < l.length) (hne : k ≠ k') :
    l.getD k 0 ≠ l.getD k' 0 := by
  rw [List.getD_eq_getElem l 0 hk, List.getD_eq_getElem l 0 hk']
  intro he
  exact hne ((List.Nodup.getElem_inj_iff hnd).mp he)

/-- Every nonzero id produced during a pass comes from a slot whose bit was
still clear when the pass started. -/
lemma allocPass_mem_fresh (crtcs : List Nat) :
    ∀ (conns : List (List Encoder)) (taken c : Nat),
      c ∈ (allocPass crtcs conns taken).1 → c ≠ 0 →
      ∃ k, k < crtcs.length ∧ c = crtcs.getD k 0 ∧ taken.testBit k = false := by
  intro conns
  induction conns with
  | nil => intro taken c hc; exact absurd hc (by simp [allocPass])
  | cons conn rest ih =>
    intro taken c hc hc0
    simp only [allocPass, List.mem_cons] at hc
    rcases hc with hc | hc
    · subst hc
      obtain ⟨k, hk, hclear, heq⟩ := find_crtc_success hc0
      exact ⟨k, hk, by rw [heq], hclear⟩
    · obtain ⟨k, hk, hck, hclear⟩ := ih _ c hc hc0
      refine ⟨k, hk, hck, ?_⟩
      by_contra hset
      rw [Bool.not_eq_false] at hset
      rw [find_crtc_taken_mono crtcs conn taken k hset] at hclear
      exact absurd hclear (by simp)

/-- Claim C1: within one enumeration pass, whenever `find_crtc` returns a
nonzero CRTC id the corresponding bit of the shared `taken_crtcs` mask was
previously clear and is set before returning; consequently (the device
reporting pairwise-distinct CRTC ids, i.e. a `Nodup` slot list) the nonzero
ids returned across the pass are pairwise distinct. -/
theorem find_crtc_no_double_assign (crtcs : List Nat) (hnd : crtcs.Nodup) :
    (∀ (encs : List Encoder) (taken : Nat),
        (find_crtc crtcs encs taken).1 ≠ 0 →
        ∃ k, k < crtcs.length ∧
          taken.testBit k = false ∧
          ((find_crtc crtcs encs taken).2).testBit k = true ∧
          (find_crtc crtcs encs taken).1 = crtcs.getD k 0) ∧
    ∀ (conns : List (List Encoder)) (taken : Nat),
      ((allocPass crtcs conns taken).1.filter (fun c => c ≠ 0)).Nodup := by
  constructor
  · intro encs taken h
    obtain ⟨k, hk, hclear, heq⟩ := find_crtc_success h
    exact ⟨k, hk, hclear, by rw [heq]; simp [Nat.testBit_or], by rw [heq]⟩
  · intro conns
    induction conns with
    | nil => intro taken; simp [allocPass]
    | cons conn rest ih =>
      intro taken
      simp only [allocPass]
      by_cases h0 : (find_crtc crtcs conn taken).1 = 0
      · rw [List.filter_cons_of_neg (by simp [h0])]
        exact ih _
      · rw [List.filter_cons_of_pos (by simp [h0])]
        refine List.nodup_cons.mpr ⟨?_, ih _⟩
        intro hmem
        rw [List.mem_filter] at hmem
        obtain ⟨k, hk, hclear, heq⟩ := find_crtc_success h0
        obtain ⟨k', hk', hck', hclear'⟩ :=
          allocPass_mem_fresh crtcs rest _ _ hmem.1 (by simpa using hmem.2)
        have hkk : k ≠ k' := by
          intro he
          rw [heq, he] at hclear'
          simp [Nat.testBit_or] at hclear'
        rw [heq] at hck'
        exact nodup_getD_ne hnd hk hk' hkk (by simpa using hck')

/-- Claim C1 witness: a concrete two-connector pass on two slots yields
pairwise-distinct nonzero CRTC ids. -/
theorem find_crtc_no_double_assign_witness :
    ((allocPass [5, 6] [[some 3], [some 3]] 0).1.filter (fun c => c ≠ 0)).Nodup :=
  (find_crtc_no_double_assign [5, 6] (by decide)).2 [[some 3], [some 3]] 0

/-- Claim C7: `find_crtc` implements exactly the spec's first-fit policy
over (encoder order, controller index order): it returns the spec
allocator's selection when one exists, and otherwise 0 with the allocation
mask unchanged. -/
theorem find_crtc_first_fit (crtcs : List Nat) (encs : List Encoder) (taken : Nat) :
    find_crtc crtcs encs taken =
      match specAllocate crtcs encs taken with
      | some sel => sel
      | none => (0, taken) := by
  induction encs with
  | nil => rfl
  | cons e rest ih =>
    cases e with
    | none => simpa [find_crtc, specAllocate] using ih
    | some possible =>
      have hscan := scanCrtcs_eq_find possible taken crtcs 0
      rw [← List.range_eq_range'] at hscan
      simp only [Nat.sub_zero] at hscan
      cases hf : specFirstSlot crtcs.length possible taken with
      | none =>
        have : scanCrtcs crtcs 0 possible taken = none := by
          rw [hscan]; unfold specFirstSlot at hf; rw [hf]
        simpa [find_crtc, specAllocate, this, hf] using ih
      | some j =>
        have : scanCrtcs crtcs 0 possible taken =
            some (crtcs.getD j 0, taken ||| 2 ^ j) := by
          rw [hscan]; unfold specFirstSlot at hf; rw [hf]
        simp [find_crtc, specAllocate, this, hf]

/-- Claim C4, evaluated at the failing input: when `mmap` fails (returns
`MAP_FAILED`), `create_fb` reports success, leaves both the FB object and
the dumb buffer allocated, and reaches the `memset` with the invalid
`MAP_FAILED` pointer — because the error test at src/main.c:127 checks the
pointer against NULL, which a failing `mmap` never returns. -/
theorem create_fb_mmap_failure_leaks :
    (create_fb mmapFailEnv).ok = true ∧
    (create_fb mmapFailEnv).dumbLive = true ∧
    (create_fb mmapFailEnv).fbLive = true ∧
    (create_fb mmapFailEnv).memsetTarget = some Ptr.mapFailed := by
  decide

lemma writeAt_length {data w : List Nat} {pos : Nat}
    (h : pos + w.length ≤ data.length) :
    (writeAt data pos w).length = data.length := by
  simp only [writeAt, List.length_append, List.length_take, List.length_drop]
  omega

lemma loadLoop_length :
    ∀ (chunks : List Chunk) (data : List Nat) (pos : Nat) (out : List Nat × Nat),
      loadLoop chunks data pos = some out → out.1.length = data.length := by
  intro chunks
  induction chunks with
  | nil =>
    intro data pos out h
    obtain rfl : (data, pos) = out := by simpa [loadLoop] using h
    rfl
  | cons ch rest ih =>
    intro data pos out h
    cases ch with
    | err =>
      by_cases hp : data.length ≤ pos
      · obtain rfl : (data, pos) = out := by simpa [loadLoop, hp] using h
        rfl
      · exact absurd h (by simp [loadLoop, hp])
    | bytes bs =>
      by_cases hp : data.length ≤ pos
      · obtain rfl : (data, pos) = out := by simpa [loadLoop, hp] using h
        rfl
      · by_cases hbs : bs.isEmpty
        · obtain rfl : (data, pos) = out := by simpa [loadLoop, hp, hbs] using h
          rfl
        · rw [loadLoop, if_neg hp, if_neg hbs] at h
          have hlen : pos + (bs.take (data.length - pos)).length ≤ data.length := by
            have := List.length_take_le (data.length - pos) bs
            omega
          rw [ih _ _ _ h, writeAt_length hlen]

lemma writeAt_append {data : List Nat} {pos : Nat} {w1 w2 : List Nat}
    (h : pos + w1.length ≤ data.length) :
    writeAt (writeAt data pos w1) (pos + w1.length) w2 =
      writeAt data pos (w1 ++ w2) := by
  have hlen1 : (data.take pos ++ w1).length = pos + w1.length := by
    simp only [List.length_append, List.length_take]
    omega
  unfold writeAt
  rw [List.take_left' hlen1]
  rw [show pos + w1.length + w2.length = (data.take pos ++ w1).length + w2.length by
    rw [hlen1]]
  rw [List.drop_append w2.length, List.drop_drop]
  rw [show pos + w1.length + w2.length = pos + (w1 ++ w2).length by
    simp only [List.length_append]; omega]
  simp [List.append_assoc]

lemma loadLoop_bytes (parts : List (List Nat)) :
    ∀ (data : List Nat) (pos : Nat),
      (∀ p ∈ parts, p ≠ []) →
      pos + parts.flatten.length ≤ data.length →
      loadLoop (parts.map Chunk.bytes) data pos =
        some (writeAt data pos parts.flatten, pos + parts.flatten.length) := by
  induction parts with
  | nil =>
    intro data pos _ _
    simp [loadLoop, writeAt, List.take_append_drop]
  | cons bs parts ih =>
    intro data pos hne hfit
    have hbs : bs ≠ [] := hne bs (List.mem_cons_self bs parts)
    have hbs0 : 0 < bs.length := List.length_pos.mpr hbs
    have hjoin : (bs :: parts).flatten = bs ++ parts.flatten := by simp
    have hfit' : pos + (bs.length + parts.flatten.length) ≤ data.length := by
      rw [hjoin] at hfit
      simpa [List.length_append] using hfit
    have hpos : ¬ data.length ≤ pos := by omega
    have hw : bs.take (data.length - pos) = bs := List.take_of_length_le (by omega)
    simp only [List.map_cons]
    rw [loadLoop, if_neg hpos, if_neg (by simp [List.isEmpty_iff, hbs]), hw]
    rw [ih (writeAt data pos bs) (pos + bs.length)
      (fun p hp => hne p (List.mem_cons_of_mem bs hp))
      (by rw [writeAt_length (by omega)]; omega)]
    rw [writeAt_append (by omega), hjoin]
    rw [show pos + bs.length + parts.flatten.length = pos + (bs ++ parts.flatten).length by
      simp only [List.length_append]; omega]

/-- Claim C3: the load loop never writes outside the mapping — for every
input source a successful load leaves the mapping contents exactly
`sizeBytes` long; and a source delivered in nonempty chunks whose total
length fits the mapping succeeds and leaves the mapping holding the source
bytes followed by the untouched 0xff pre-fill that `create_fb`'s `memset`
wrote (for a source of exactly `sizeBytes` bytes the fill is empty, so the
mapping equals the source byte-for-byte). -/
theorem load_splash_image_bounds (size : Nat) (parts : List (List Nat))
    (hne : ∀ p ∈ parts, p ≠ []) (hfit : parts.flatten.length ≤ size) :
    (∀ (chunks : List Chunk) (out : List Nat × Nat),
        load_splash_image_from_stdin (List.replicate size 255) chunks = some out →
        out.1.length = size) ∧
    load_splash_image_from_stdin (List.replicate size 255) (parts.map Chunk.bytes) =
      some (parts.flatten ++ List.replicate (size - parts.flatten.length) 255,
        parts.flatten.length) := by
  constructor
  · intro chunks out h
    simpa using loadLoop_length chunks _ 0 out h
  · unfold load_splash_image_from_stdin
    rw [loadLoop_bytes parts _ 0 hne (by simpa using hfit)]
    simp [writeAt, List.drop_replicate]

/-- Claim C3 witness: a 4-byte mapping pre-filled with 0xff, loaded from a
3-byte source split over two reads, ends as the source bytes plus one fill
byte, with success reported. -/
theorem load_splash_image_bounds_witness :
    load_splash_image_from_stdin (List.replicate 4 255) ([[1, 2], [3]].map Chunk.bytes) =
      some ([1, 2, 3] ++ List.replicate 1 255, 3) :=
  (load_splash_image_bounds 4 [[1, 2], [3]] (by decide) (by decide)).2

/-- Claim C9: surface teardown is idempotent — running the destroy
sequence on an already-destroyed surface leaves its state unchanged (each
of the three calls finds nothing to release and has no effect), and the
program reports no new error, because the source never inspects the
calls' return values (src/main.c:339-342). -/
theorem destroy_idempotent (s : SurfState) :
    (destroySurface (destroySurface s).1).1 = (destroySurface s).1 ∧
    (destroySurface (destroySurface s).1).2.1 =
      [CallResult.errInvalid, CallResult.errInvalid, CallResult.errInvalid] ∧
    (destroySurface (destroySurface s).1).2.2 = [] :=
  ⟨rfl, rfl, rfl⟩

/-- Claim C8 counterexample: a run in which the device opens and resource
enumeration succeeds still exits with status 1 when daemonize's `fork`
fails (src/main.c:186-189), so exit status 1 is not limited to the two
startup failures named by the claim. -/
theorem exit_status_counterexample :
    envForkFail.openOk = true ∧ envForkFail.getResOk = true ∧
    (mainRun envForkFail).exitCode = 1 :=
  ⟨rfl, rfl, rfl⟩

/-- Claim C8 (amended): the process exits with status 1 exactly when
device open, resource enumeration, or daemonize's fork fails, and with
status 0 otherwise; per-output outcomes (arbitrary in `env.conns`) never
affect the exit status. -/
theorem exit_status_exact (env : Env) :
    (mainRun env).exitCode =
      if env.openOk && env.getResOk && env.forkOk then 0 else 1 := by
  unfold mainRun
  cases hopen : env.openOk <;> cases hres : env.getResOk <;>
    cases hfork : env.forkOk <;> simp [hopen, hres, hfork]

/-- Claim C5 counterexample: a connector whose `drmModeGetConnector` query
fails is skipped before any record is allocated (src/main.c:235-237), so
no output is marked `connected = false` for it — the record list stays
empty, contradicting the claim that every listed per-output failure marks
that output `connected = false`. -/
theorem connector_query_failure_no_record :
    dQueryFail.queryOk = false ∧
    (enumeratePhase [5] [dQueryFail] st0).recs = [] :=
  ⟨rfl, rfl⟩

/-- Claim C5 (amended): a connector query failure (or a failing record
allocation) creates no output record at all; each of the other per-output
failures — zero usable modes, no available CRTC, framebuffer creation
failure, image-load failure — pushes a record for that output alone with
`connected = false`; in every case the loop goes on to process all
remaining connectors, the device state is untouched, and previously built
records are unchanged (only the shared `taken_crtcs` mask advances once a
CRTC was allocated). -/
theorem per_output_failure_isolated (crtcs : List Nat) (st : RunState)
    (d : ConnDesc) (pre post : List ConnDesc) :
    (enumeratePhase crtcs (pre ++ d :: post) st =
      enumeratePhase crtcs post
        (activateStep crtcs (enumeratePhase crtcs pre st) d)) ∧
    (d.queryOk = false → activateStep crtcs st d = st) ∧
    (d.queryOk = true → d.mallocOk = true → d.isConnected = true →
      d.nModes = 0 →
      activateStep crtcs st d =
        { taken := st.taken, device := st.device,
          recs := { baseRec d with connected := false } :: st.recs }) ∧
    (d.queryOk = true → d.mallocOk = true → d.isConnected = true →
      d.nModes ≠ 0 → (find_crtc crtcs d.encoders st.taken).1 = 0 →
      activateStep crtcs st d =
        { taken := (find_crtc crtcs d.encoders st.taken).2,
          device := st.device,
          recs := { baseRec d with connected := false } :: st.recs }) ∧
    (d.queryOk = true → d.mallocOk = true → d.isConnected = true →
      d.nModes ≠ 0 → (find_crtc crtcs d.encoders st.taken).1 ≠ 0 →
      d.createOk = false →
      activateStep crtcs st d =
        { taken := (find_crtc crtcs d.encoders st.taken).2,
          device := st.device,
          recs := { baseRec d with
            connected := false,
            crtc_id := (find_crtc crtcs d.encoders st.taken).1,
            mode := d.mode0 } :: st.recs }) ∧
    (d.queryOk = true → d.mallocOk = true → d.isConnected = true →
      d.nModes ≠ 0 → (find_crtc crtcs d.encoders st.taken).1 ≠ 0 →
      d.createOk = true → d.loadOk = false →
      activateStep crtcs st d =
        { taken := (find_crtc crtcs d.encoders st.taken).2,
          device := st.device,
          recs := { baseRec d with
            connected := false,
            crtc_id := (find_crtc crtcs d.encoders st.taken).1,
            mode := d.mode0,
            fbCreated := true,
            fbId := d.fbId,
            fbHandle := d.fbHandle,
            mappedLive := true,
            fbLive := true,
            dumbLive := true } :: st.recs }) := by
  refine ⟨?_, ?_, ?_, ?_, ?_, ?_⟩
  · simp [enumeratePhase, List.foldl_append]
  · intro hq; simp [activateStep, hq]
  · intro hq hm hc hn; simp [activateStep, hq, hm, hc, hn]
  · intro hq hm hc hn hf; simp [activateStep, hq, hm, hc, hn, hf]
  · intro hq hm hc hn hf hcr; simp [activateStep, hq, hm, hc, hn, hf, hcr]
  · intro hq hm hc hn hf hcr hl
    simp [activateStep, hq, hm, hc, hn, hf, hcr, hl]

/-- Claim C5 witness: the image-load failure conjunct evaluated on a
concrete state — the failing output is pushed with `connected = false`,
the prior (empty) record list and the device are untouched. -/
theorem per_output_failure_isolated_witness :
    activateStep [5] st0 dLoadFail =
      { taken := 1, device := dev0, recs := [recLoadFail] } :=
  (per_output_failure_isolated [5] st0 dLoadFail [] []).2.2.2.2.2
    rfl rfl rfl (by decide) (by decide) rfl rfl

/-- Claim C6: when the activating `drmModeSetCrtc` fails, the failure is
only logged — the record keeps `connected = true`, the allocated CRTC,
the created framebuffer, the loaded image, and the captured snapshot, and
the device state is not changed; and at shutdown every connected record
still has its framebuffer torn down (unmap, FB removal, dumb-buffer
destruction) with its resources marked released. -/
theorem modeset_failure_only_logged (crtcs : List Nat) (st : RunState)
    (d : ConnDesc) (hq : d.queryOk = true) (hm : d.mallocOk = true)
    (hc : d.isConnected = true) (hn : d.nModes ≠ 0)
    (hf : (find_crtc crtcs d.encoders st.taken).1 ≠ 0)
    (hcr : d.createOk = true) (hl : d.loadOk = true) (hs : d.setOk = false) :
    activateStep crtcs st d =
      { taken := (find_crtc crtcs d.encoders st.taken).2,
        device := st.device,
        recs := { baseRec d with
          connected := true,
          crtc_id := (find_crtc crtcs d.encoders st.taken).1,
          mode := d.mode0,
          fbCreated := true,
          fbId := d.fbId,
          fbHandle := d.fbHandle,
          imageLoaded := true,
          saved := if d.getCrtcOk then
              some (st.device (find_crtc crtcs d.encoders st.taken).1)
            else none,
          mappedLive := true,
          fbLive := true,
          dumbLive := true } :: st.recs } ∧
    (∀ r : ConnRec, r.connected = true →
      cleanupActions r =
        [Action.unmapAct r.fbId, Action.rmFbAct r.fbId,
          Action.destroyDumbAct r.fbHandle] ++
          (match r.saved with
           | some cfg => [Action.setCrtcAct r.crtc_id cfg]
           | none => []) ∧
      cleanupRec r =
        { r with mappedLive := false, fbLive := false, dumbLive := false }) := by
  constructor
  · simp [activateStep, hq, hm, hc, hn, hf, hcr, hl, hs]
  · intro r hr
    exact ⟨by simp [cleanupActions, hr], by simp [cleanupRec, hr]⟩

/-- Claim C6 witness: the mode-switch failure conjunct evaluated on a
concrete state, plus the teardown the cleanup phase applies to the
resulting (still connected) record. -/
theorem modeset_failure_only_logged_witness :
    activateStep [5] st0 dSetFail =
      { taken := 1, device := dev0,
        recs := [{ baseRec dSetFail with
          connected := true,
          crtc_id := 5,
          mode := 9,
          fbCreated := true,
          fbId := 11,
          fbHandle := 12,
          imageLoaded := true,
          saved := some cfg0,
          mappedLive := true,
          fbLive := true,
          dumbLive := true }] } :=
  (modeset_failure_only_logged [5] st0 dSetFail rfl rfl rfl (by decide)
    (by decide) rfl rfl rfl).1

/-- Claim C10: an output whose framebuffer was created but whose image
load failed ends the enumeration marked `connected = false` with its
mapping, FB object, and dumb buffer all still live; and since the cleanup
loop acts only on records with `connected == true`, such a record gets no
teardown call at shutdown and keeps all three resources allocated. -/
theorem load_failure_skips_teardown (crtcs : List Nat) (st : RunState)
    (d : ConnDesc) (hq : d.queryOk = true) (hm : d.mallocOk = true)
    (hc : d.isConnected = true) (hn : d.nModes ≠ 0)
    (hf : (find_crtc crtcs d.encoders st.taken).1 ≠ 0)
    (hcr : d.createOk = true) (hl : d.loadOk = false) :
    ((activateStep crtcs st d).recs =
      { baseRec d with
        connected := false,
        crtc_id := (find_crtc crtcs d.encoders st.taken).1,
        mode := d.mode0,
        fbCreated := true,
        fbId := d.fbId,
        fbHandle := d.fbHandle,
        mappedLive := true,
        fbLive := true,
        dumbLive := true } :: st.recs) ∧
    (∀ r : ConnRec, r.connected = false →
      cleanupActions r = [] ∧ cleanupRec r = r) := by
  constructor
  · simp [activateStep, hq, hm, hc, hn, hf, hcr, hl]
  · intro r hr
    exact ⟨by simp [cleanupActions, hr], by simp [cleanupRec, hr]⟩

/-- Claim C10 witness: the load-failure record on a concrete state, and
the cleanup loop issuing no call for it and leaving it unchanged. -/
theorem load_failure_skips_teardown_witness :
    (activateStep [5] st0 dLoadFail).recs = [recLoadFail] ∧
    cleanupActions recLoadFail = [] ∧ cleanupRec recLoadFail = recLoadFail :=
  ⟨(load_failure_skips_teardown [5] st0 dLoadFail rfl rfl rfl (by decide)
      (by decide) rfl rfl).1,
   (load_failure_skips_teardown [5] st0 dLoadFail rfl rfl rfl (by decide)
      (by decide) rfl rfl).2 recLoadFail rfl⟩

lemma Inv_cons_of_not_connected {crtcs : List Nat} {st : RunState}
    (h : Inv crtcs st) {r : ConnRec} (hr : r.connected = false)
    {t' : Nat} (hmono : ∀ b, st.taken.testBit b = true → t'.testBit b = true)
    (dev : Nat → CrtcCfg) :
    Inv crtcs ⟨t', dev, r :: st.recs⟩ := by
  obtain ⟨hgood, hpair⟩ := h
  constructor
  · intro x hx
    rcases List.mem_cons.mp hx with rfl | hx
    · intro hcx
      rw [hr] at hcx
      exact absurd hcx (by simp)
    · intro hcx
      obtain ⟨k, hk, hb, he⟩ := hgood x hx hcx
      exact ⟨k, hk, hmono k hb, he⟩
  · refine List.Pairwise.cons ?_ hpair
    intro x _ hc1 _
    rw [hr] at hc1
    exact absurd hc1 (by simp)

lemma Inv_cons_connected {crtcs : List Nat} (hnd : crtcs.Nodup) {st : RunState}
    (h : Inv crtcs st) {r : ConnRec} {k : Nat}
    (hk : k < crtcs.length) (hclear : st.taken.testBit k = false)
    {t' : Nat} (ht : t' = st.taken ||| 2 ^ k)
    (hid : r.crtc_id = crtcs.getD k 0)
    (dev : Nat → CrtcCfg) :
    Inv crtcs ⟨t', dev, r :: st.recs⟩ := by
  obtain ⟨hgood, hpair⟩ := h
  subst ht
  constructor
  · intro x hx
    rcases List.mem_cons.mp hx with rfl | hx
    · intro _
      exact ⟨k, hk, by simp [Nat.testBit_or, Nat.testBit_two_pow_self], hid⟩
    · intro hcx
      obtain ⟨k2, hk2, hb2, he2⟩ := hgood x hx hcx
      exact ⟨k2, hk2, by simp [Nat.testBit_or, hb2], he2⟩
  · refine List.Pairwise.cons ?_ hpair
    intro x hx _ hc2
    obtain ⟨k2, hk2, hb2, he2⟩ := hgood x hx hc2
    have hkk : k ≠ k2 := by
      intro he
      rw [he, hb2] at hclear
      exact absurd hclear (by simp)
    rw [hid, he2]
    exact nodup_getD_ne hnd hk hk2 hkk

lemma step_inv (crtcs : List Nat) (hnd : crtcs.Nodup) (st : RunState)
    (d : ConnDesc) (h : Inv crtcs st) :
    Inv crtcs (activateStep crtcs st d) := by
  by_cases hq : d.queryOk = false
  · simpa [activateStep, hq] using h
  by_cases hm : d.mallocOk = false
  · simpa [activateStep, hq, hm] using h
  by_cases hc : d.isConnected = false
  · rw [show activateStep crtcs st d = { st with recs := baseRec d :: st.recs }
      from by simp [activateStep, hq, hm, hc]]
    exact Inv_cons_of_not_connected h (by simp [baseRec, hc])
      (fun _ hb => hb) st.device
  by_cases hn : d.nModes = 0
  · rw [show activateStep crtcs st d =
      { st with recs := { baseRec d with connected := false } :: st.recs }
      from by simp [activateStep, hq, hm, hc, hn]]
    exact Inv_cons_of_not_connected h rfl (fun _ hb => hb) st.device
  by_cases hf : (find_crtc crtcs d.encoders st.taken).1 = 0
  · rw [show activateStep crtcs st d =
      { taken := (find_crtc crtcs d.encoders st.taken).2, device := st.device,
        recs := { baseRec d with connected := false } :: st.recs }
      from by simp [activateStep, hq, hm, hc, hn, hf]]
    exact Inv_cons_of_not_connected h rfl
      (find_crtc_taken_mono crtcs d.encoders st.taken) st.device
  by_cases hcr : d.createOk = false
  · rw [show activateStep crtcs st d =
      { taken := (find_crtc crtcs d.encoders st.taken).2, device := st.device,
        recs := { baseRec d with
          connected := false,
          crtc_id := (find_crtc crtcs d.encoders st.taken).1,
          mode := d.mode0 } :: st.recs }
      from by simp [activateStep, hq, hm, hc, hn, hf, hcr]]
    exact Inv_cons_of_not_connected h rfl
      (find_crtc_taken_mono crtcs d.encoders st.taken) st.device
  by_cases hl : d.loadOk = false
  · rw [show activateStep crtcs st d =
      { taken := (find_crtc crtcs d.encoders st.taken).2, device := st.device,
        recs := { baseRec d with
          connected := false,
          crtc_id := (find_crtc crtcs d.encoders st.taken).1,
          mode := d.mode0,
          fbCreated := true,
          fbId := d.fbId,
          fbHandle := d.fbHandle,
          mappedLive := true,
          fbLive := true,
          dumbLive := true } :: st.recs }
      from by simp [activateStep, hq, hm, hc, hn, hf, hcr, hl]]
    exact Inv_cons_of_not_connected h rfl
      (find_crtc_taken_mono crtcs d.encoders st.taken) st.device
  · rw [show activateStep crtcs st d =
      { taken := (find_crtc crtcs d.encoders st.taken).2,
        device := if d.setOk then
            fun c => if c = (find_crtc crtcs d.encoders st.taken).1 then
                ⟨d.fbId, 0, 0, d.mode0⟩
              else st.device c
          else st.device,
        recs := { baseRec d with
          connected := true,
          crtc_id := (find_crtc crtcs d.encoders st.taken).1,
          mode := d.mode0,
          fbCreated := true,
          fbId := d.fbId,
          fbHandle := d.fbHandle,
          imageLoaded := true,
          saved := if d.getCrtcOk then
              some (st.device (find_crtc crtcs d.encoders st.taken).1)
            else none,
          mappedLive := true,
          fbLive := true,
          dumbLive := true } :: st.recs }
      from by simp [activateStep, hq, hm, hc, hn, hf, hcr, hl]]
    obtain ⟨k, hk, hclear, heq⟩ := find_crtc_success hf
    exact Inv_cons_connected hnd h hk hclear (congrArg Prod.snd heq)
      (congrArg Prod.fst heq) _

lemma enumerate_inv (crtcs : List Nat) (hnd : crtcs.Nodup) (ds : List ConnDesc) :
    ∀ st : RunState, Inv crtcs st → Inv crtcs (enumeratePhase crtcs ds st) := by
  induction ds with
  | nil => intro st h; exact h
  | cons d rest ih =>
    intro st h
    exact ih _ (step_inv crtcs hnd st d h)

lemma cleanupRec_preserves (r : ConnRec) :
    (cleanupRec r).connected = r.connected ∧ (cleanupRec r).saved = r.saved ∧
    (cleanupRec r).crtc_id = r.crtc_id ∧
    (cleanupRec r).restoreOk = r.restoreOk ∧
    (cleanupRec r).fbId = r.fbId ∧ (cleanupRec r).fbHandle = r.fbHandle := by
  unfold cleanupRec
  split <;> exact ⟨rfl, rfl, rfl, rfl, rfl, rfl⟩

lemma applyRestore_ne {dev : Nat → CrtcCfg} {r : ConnRec} {c : Nat}
    (h : r.connected = true → r.crtc_id ≠ c) :
    applyRestore dev r c = dev c := by
  cases hcs : r.saved with
  | none => simp [applyRestore, hcs]
  | some cfg =>
    by_cases hb : (r.connected && r.restoreOk) = true
    · have hcc : r.connected = true ∧ r.restoreOk = true := by simpa using hb
      have hne : ¬ c = r.crtc_id := fun he => h hcc.1 he.symm
      simp [applyRestore, hcs, hb, hne]
    · simp [applyRestore, hcs, hb]

lemma applyRestore_write {dev : Nat → CrtcCfg} {r : ConnRec} {cfg : CrtcCfg}
    (hc : r.connected = true) (hs : r.saved = some cfg)
    (hrok : r.restoreOk = true) :
    applyRestore dev r r.crtc_id = cfg := by
  simp [applyRestore, hs, hc, hrok]

lemma cleanupDevice_split (dev : Nat → CrtcCfg) (l1 l2 : List ConnRec)
    (r0 : ConnRec) :
    cleanupDevice dev (l1 ++ r0 :: l2) =
      cleanupDevice (applyRestore (cleanupDevice dev l1) r0) l2 := by
  unfold cleanupDevice
  rw [List.foldl_append]
  rfl

lemma cleanupDevice_noWrite :
    ∀ (l : List ConnRec) (c : Nat),
      (∀ x ∈ l, x.connected = true → x.crtc_id ≠ c) →
      ∀ dev : Nat → CrtcCfg, cleanupDevice dev l c = dev c := by
  intro l
  induction l with
  | nil => intro c _ dev; rfl
  | cons x xs ih =>
    intro c h dev
    have hstep : cleanupDevice dev (x :: xs) c =
        cleanupDevice (applyRestore dev x) xs c := rfl
    rw [hstep, ih c (fun y hy => h y (List.mem_cons_of_mem x hy))]
    exact applyRestore_ne (h x (List.mem_cons_self x xs))

/-- Claim C2: in a run reaching the cleanup phase (with device-unique CRTC
ids), every output still connected at shutdown whose controller had a
prior configuration captured in `conn->saved` gets that controller set
back to exactly the captured configuration — same buffer, position, and
mode — by the restore phase (whose own mode-set call succeeds); an output
whose snapshot was not captured (`saved` NULL) gets no restore mode-set
at all: its cleanup issues only the three teardown calls. -/
theorem activate_restore_roundtrip (env : Env) (hnd : env.crtcs.Nodup)
    (hopen : env.openOk = true) (hres : env.getResOk = true)
    (hfork : env.forkOk = true) (r : ConnRec)
    (hr : r ∈ (mainRun env).recs) (hc : r.connected = true) :
    (∀ cfg, r.saved = some cfg → r.restoreOk = true →
      (mainRun env).device r.crtc_id = cfg) ∧
    (r.saved = none →
      cleanupActions r =
        [Action.unmapAct r.fbId, Action.rmFbAct r.fbId,
         Action.destroyDumbAct r.fbHandle]) := by
  have hmain1 : (mainRun env).recs =
      (enumeratePhase env.crtcs env.conns ⟨0, env.device0, []⟩).recs.map
        cleanupRec := by
    simp [mainRun, hopen, hres, hfork]
  have hmain2 : (mainRun env).device =
      cleanupDevice
        (enumeratePhase env.crtcs env.conns ⟨0, env.device0, []⟩).device
        (enumeratePhase env.crtcs env.conns ⟨0, env.device0, []⟩).recs := by
    simp [mainRun, hopen, hres, hfork]
  constructor
  · intro cfg hs hrok
    rw [hmain1] at hr
    obtain ⟨r0, hr0mem, hr0⟩ := List.mem_map.mp hr
    obtain ⟨hp1, hp2, hp3, hp4, _, _⟩ := cleanupRec_preserves r0
    have hc0 : r0.connected = true := by rw [← hp1, hr0]; exact hc
    have hs0 : r0.saved = some cfg := by rw [← hp2, hr0]; exact hs
    have hrok0 : r0.restoreOk = true := by rw [← hp4, hr0]; exact hrok
    have hid : r0.crtc_id = r.crtc_id := by rw [← hp3, hr0]
    obtain ⟨hgood, hpair⟩ := enumerate_inv env.crtcs hnd env.conns
      ⟨0, env.device0, []⟩
      ⟨fun x hx => absurd hx (List.not_mem_nil x), List.Pairwise.nil⟩
    obtain ⟨l1, l2, hsplit⟩ := List.mem_iff_append.mp hr0mem
    have hno : ∀ x ∈ l2, x.connected = true → x.crtc_id ≠ r.crtc_id := by
      rw [hsplit] at hpair
      have hp23 := (List.pairwise_append.mp hpair).2.1
      have hl2 := (List.pairwise_cons.mp hp23).1
      intro x hx hcx he
      exact (hl2 x hx hc0 hcx) (hid.trans he.symm)
    rw [hmain2, hsplit, cleanupDevice_split, cleanupDevice_noWrite l2 _ hno,
      ← hid]
    exact applyRestore_write hc0 hs0 hrok0
  · intro hs
    simp [cleanupActions, hc, hs]

/-- Claim C2 witness: a fully successful single-output run on a device
whose CRTC 5 was configured as `cfg0` before activation ends with CRTC 5
restored to exactly `cfg0`. -/
theorem activate_restore_roundtrip_witness :
    (mainRun envGood).device 5 = cfg0 :=
  (activate_restore_roundtrip envGood (by decide) rfl rfl rfl recGoodFinal
    (by decide) rfl).1 cfg0 rfl rfl

end DrmFb
